import Mathlib

/-!
The Lua binding `lwebsockets.c` of lua-websockets.

A shallow embedding of `src/src/lwebsockets.c` (the event bridge `lws_callback`, the
constructor `lws_context` and the destructor `lws_context_destroy`) over an explicit
model of the part of the Lua 5.1 C API the file uses.

Conventions of the embedding.

* The Lua stack of the running C function is a list, index 1 first, top last.
* A use of the C API outside its contract (an invalid stack index, a read past the end
  of an array, a write through a pointer that addresses no `int`) is a
  `Fault.undefined`; a Lua error raised with `lua_error` (it leaves the C function by
  `longjmp`) is a `Fault.raised`.
* Lua numbers are modelled by their integral values; tables are association lists in
  traversal order; metamethods of the tables read here are not modelled; the stack has
  room for every push.
* The C types are those of a platform where `int` has 32 bits and `lua_Integer`, which
  is `ptrdiff_t`, and `size_t` have 64. A number is converted to `int` through
  `lua_Integer` (`lua_number2integer`, then `toInt32`), and a `size_t` is converted to a
  number by rounding to 53 significant bits (`size_t_to_number`).
* The auxiliary library is that of Lua 5.1 (`lauxlib.c`): `luaL_ref` and `luaL_unref`
  keep the free references in a list whose head is `registry[0]`.
* What the file leaves to its collaborators (the numeric values of the reason codes, the
  behaviour of the Lua functions it calls, the string/number coercions of the Lua core,
  the result of `libwebsocket_create_context`) is a field of `World`.
-/

namespace LuaWebsockets

/-! ## Lua values and tables -/

/-- Lua values. Tables, functions and userdata are references (object identities). -/
inductive Value where
  | nil
  | bool (b : Bool)
  | number (n : Int)
  | string (s : String)
  | table (id : Nat)
  | function (id : Nat)
  | userdata (id : Nat)
  deriving DecidableEq, Repr, Inhabited

/-- The contents of a Lua table: key/value pairs in traversal order. -/
abbrev Table := List (Value × Value)

/-- Raw read `t[k]`; an absent key reads as `nil`. -/
def rawget : Table → Value → Value
  | [], _ => Value.nil
  | (k1, v1) :: t, k => if k1 = k then v1 else rawget t k

/-- Raw write `t[k] = v`; writing `nil` removes the key. -/
def rawset : Table → Value → Value → Table
  | [], k, v => if v = Value.nil then [] else [(k, v)]
  | (k1, v1) :: t, k, v =>
    if k1 = k then (if v = Value.nil then rawset t k v else (k, v) :: t)
    else (k1, v1) :: rawset t k v

/-- Search of a border from `n` upwards: the first `n + i` whose successor key is absent. -/
def border_from (t : Table) : Nat → Nat → Nat
  | 0, n => n
  | fuel + 1, n =>
    if rawget t (Value.number ((n : Int) + 1)) = Value.nil then n else border_from t fuel (n + 1)

/-- The length operator of a table (`lua_objlen`): its first border. -/
def objlen (t : Table) : Nat := border_from t t.length 0

/-- One step of a traversal (`next`): the pair after `key`, `none` at the end of the
table; the outer `none` is the error "invalid key to next". -/
def table_next : Table → Value → Option (Option (Value × Value))
  | t, Value.nil => some t.head?
  | [], _ => none
  | (k1, _) :: t, k => if k1 = k then some t.head? else table_next t k

/-! ## The Lua state -/

/-- The part of the global state the binding reaches: the registry, the heap of tables,
the metatables and the allocator of object identities. -/
structure global_State where
  registry : Table
  tables : List (Nat × Table)
  metatables : Table
  next_id : Nat
  deriving DecidableEq, Repr

/-- A Lua state as the running C function sees it: its stack frame and the global state. -/
structure lua_State where
  stack : List Value
  l_G : global_State
  deriving DecidableEq, Repr

/-- Lua errors the modelled code can raise or let through. -/
inductive LuaError where
  | bad_argument
  | call_non_function
  | index_non_table
  | invalid_key_to_next
  | thrown (v : Value)
  deriving DecidableEq, Repr

/-- Uses of C or of the Lua API outside their contract. -/
inductive Undefined where
  | invalid_index
  | not_a_table
  | out_of_bounds
  | buffer_overflow
  | bad_pointer
  | missing_result
  deriving DecidableEq, Repr

/-- Ways a C function of the binding fails to return. -/
inductive Fault where
  | raised (e : LuaError)
  | undefined (u : Undefined)
  | assert_failed
  | out_of_fuel
  deriving DecidableEq, Repr

/-- The reasons of `enum libwebsocket_callback_reasons` that `lws_callback` names, and
the others by their code. -/
inductive libwebsocket_callback_reasons where
  | LWS_CALLBACK_ESTABLISHED
  | LWS_CALLBACK_CLIENT_ESTABLISHED
  | LWS_CALLBACK_CLOSED
  | LWS_CALLBACK_RECEIVE
  | LWS_CALLBACK_CLIENT_RECEIVE
  | LWS_CALLBACK_HTTP
  | LWS_CALLBACK_ADD_POLL_FD
  | LWS_CALLBACK_DEL_POLL_FD
  | LWS_CALLBACK_SET_MODE_POLL_FD
  | LWS_CALLBACK_CLEAR_MODE_POLL_FD
  | other (code : Nat)
  deriving DecidableEq, Repr

/-- An entry of `struct libwebsocket_protocols` as the binding fills it: `name` and
`user` point into the rows `protocol_names[n]` and `links[n]` of the same context. -/
structure libwebsocket_protocols where
  name : Option Nat
  callback : Bool
  per_session_data_size : Nat
  user : Option Nat
  deriving DecidableEq, Repr

/-- What the binding takes from its collaborators. -/
structure World where
  /-- The numeric value of a reason code (`libwebsockets.h`). -/
  reason_code : libwebsocket_callback_reasons → Int
  /-- The Lua core's conversion of a string to a number, when it has one. -/
  str2d : String → Option Int
  /-- The Lua core's conversion of a number to a string. -/
  number2str : Int → String
  /-- What the C conversion of a number to `lua_Integer` gives for a number outside the
  range of `lua_Integer`, where C leaves the conversion undefined. -/
  integer_out_of_range : Int → Int
  /-- The behaviour of a Lua function: from its arguments and the global state, the
  values it returns and the new global state, or the error value it raises. -/
  run : Nat → List Value → global_State → Except Value (List Value × global_State)
  /-- The native engine's `libwebsocket_create_context`: the new context, `none` for
  `NULL`. -/
  create_context : Int → Option String → List libwebsocket_protocols → Option Nat

/-! ## The Lua C API -/

def LUA_REFNIL : Int := -1
def FREELIST_REF : Int := 0
def LUA_TNONE : Int := -1
def LUA_TTABLE : Int := 5

/-- Conversion to the C type `int`: reduction modulo `2^32` into the signed range. -/
def toInt32 (n : Int) : Int := (n + 2147483648) % 4294967296 - 2147483648

/-- Position in the stack list of a stack index (`index2adr`), when it is valid. -/
def index2adr (L : lua_State) (idx : Int) : Option Nat :=
  if 0 < idx ∧ idx ≤ L.stack.length then some (idx - 1).toNat
  else if idx < 0 ∧ -idx ≤ L.stack.length then some (L.stack.length - (-idx).toNat)
  else none

/-- The value at a stack index: `some none` at an acceptable index above the top
(`LUA_TNONE`); a fault at index 0 and below the frame. -/
def value_at (L : lua_State) (idx : Int) : Except Fault (Option Value) :=
  if 0 < idx then Except.ok (L.stack.get? (idx - 1).toNat)
  else match index2adr L idx with
    | some p => Except.ok (L.stack.get? p)
    | none => Except.error (Fault.undefined Undefined.invalid_index)

def lua_push (L : lua_State) (v : Value) : lua_State :=
  { L with stack := L.stack ++ [v] }

def lua_pushnil (L : lua_State) : lua_State := lua_push L Value.nil

/-- The call `lua_pushnumber(L, n)` on a number; a C integer passed to it is converted
to a number by the caller. -/
def lua_pushnumber (L : lua_State) (n : Int) : lua_State := lua_push L (Value.number n)

/-- The C conversion of a `size_t` to a number, a double: exact below `2^53`, rounded to
the nearest number of 53 significant bits, ties to even, from there on. -/
def size_t_to_number (n : Nat) : Int :=
  if n < 9007199254740992 then n
  else
    let e := Nat.log2 n - 52
    let q := n / 2 ^ e
    let r := n % 2 ^ e
    if r < 2 ^ (e - 1) ∨ (r = 2 ^ (e - 1) ∧ q % 2 = 0) then ((q * 2 ^ e : Nat) : Int)
    else (((q + 1) * 2 ^ e : Nat) : Int)

/-- The call `lua_pushlstring(L, s, len)`: `len` bytes starting at `s`. -/
def lua_pushlstring (L : lua_State) (s : String) (len : Nat) : Except Fault lua_State :=
  if len ≤ s.length then Except.ok (lua_push L (Value.string (String.mk (s.data.take len))))
  else Except.error (Fault.undefined Undefined.out_of_bounds)

def lua_pop (L : lua_State) (n : Nat) : Except Fault lua_State :=
  if n ≤ L.stack.length then
    Except.ok { L with stack := L.stack.take (L.stack.length - n) }
  else Except.error (Fault.undefined Undefined.invalid_index)

def lua_remove (L : lua_State) (idx : Int) : Except Fault lua_State :=
  match index2adr L idx with
  | some p => Except.ok { L with stack := L.stack.eraseIdx p }
  | none => Except.error (Fault.undefined Undefined.invalid_index)

def lua_pushvalue (L : lua_State) (idx : Int) : Except Fault lua_State := do
  match ← value_at L idx with
  | some v => pure (lua_push L v)
  | none => pure (lua_push L Value.nil)

/-- The type tag of the value at an index (`lua.h`). -/
def lua_type (L : lua_State) (idx : Int) : Except Fault Int := do
  match ← value_at L idx with
  | none => pure LUA_TNONE
  | some Value.nil => pure 0
  | some (Value.bool _) => pure 1
  | some (Value.number _) => pure 3
  | some (Value.string _) => pure 4
  | some (Value.table _) => pure LUA_TTABLE
  | some (Value.function _) => pure 6
  | some (Value.userdata _) => pure 7

/-- The key under which a value's metatable is kept: tables and userdata have their own,
the other types share one per type. -/
def meta_key : Value → Value
  | Value.table id => Value.table id
  | Value.userdata id => Value.userdata id
  | Value.nil => Value.nil
  | Value.bool _ => Value.bool false
  | Value.number _ => Value.number 0
  | Value.string _ => Value.string ""
  | Value.function _ => Value.function 0

/-- The call `lua_setmetatable(L, objindex)`: pops a table or nil and makes it the
metatable of the value at `objindex` (an index taken before the pop). -/
def lua_setmetatable (L : lua_State) (objindex : Int) : Except Fault lua_State :=
  match L.stack.getLast?, index2adr L objindex >>= L.stack.get? with
  | some mt, some obj =>
    match mt with
    | Value.nil | Value.table _ =>
      Except.ok
        { stack := L.stack.dropLast,
          l_G := { L.l_G with metatables := rawset L.l_G.metatables (meta_key obj) mt } }
    | _ => Except.error (Fault.undefined Undefined.not_a_table)
  | _, _ => Except.error (Fault.undefined Undefined.invalid_index)

/-- The call `lua_setfenv(L, idx)`: pops a table; the result is 1 when the value at
`idx` (taken before the pop) can have an environment, a function or a userdata, and 0
otherwise. The environment itself is not recorded. -/
def lua_setfenv (L : lua_State) (idx : Int) : Except Fault (lua_State × Int) :=
  match L.stack.getLast?, index2adr L idx >>= L.stack.get? with
  | some (Value.table _), some obj =>
    let L1 : lua_State := { L with stack := L.stack.dropLast }
    match obj with
    | Value.function _ | Value.userdata _ => Except.ok (L1, 1)
    | _ => Except.ok (L1, 0)
  | some _, some _ => Except.error (Fault.undefined Undefined.not_a_table)
  | _, _ => Except.error (Fault.undefined Undefined.invalid_index)

/-- The macro `luaL_getmetatable(L, n)`: pushes `registry[n]`. -/
def luaL_getmetatable (L : lua_State) (n : String) : lua_State :=
  lua_push L (rawget L.l_G.registry (Value.string n))

/-- The call `lua_rawgeti(L, LUA_REGISTRYINDEX, n)`. -/
def lua_rawgeti_registry (L : lua_State) (n : Int) : lua_State :=
  lua_push L (rawget L.l_G.registry (Value.number n))

/-- The call `lua_getfield(L, idx, k)` on a table without metamethods. -/
def lua_getfield (L : lua_State) (idx : Int) (k : String) : Except Fault lua_State := do
  match ← value_at L idx with
  | some (Value.table id) =>
    match L.l_G.tables.lookup id with
    | some t => pure (lua_push L (rawget t (Value.string k)))
    | none => throw (Fault.undefined Undefined.bad_pointer)
  | _ => throw (Fault.raised LuaError.index_non_table)

def lua_isnumber (W : World) : Value → Bool
  | Value.number _ => true
  | Value.string s => (W.str2d s).isSome
  | _ => false

/-- The conversion `lua_number2integer` of `luaconf.h`: the C conversion of a number to
`lua_Integer`, the 64-bit `ptrdiff_t`. It is exact on the integral numbers of that
range. -/
def lua_number2integer (W : World) (n : Int) : Int :=
  if -9223372036854775808 ≤ n ∧ n < 9223372036854775808 then n
  else W.integer_out_of_range n

def lua_tointeger (W : World) : Value → Int
  | Value.number n => lua_number2integer W n
  | Value.string s =>
    match W.str2d s with
    | some n => lua_number2integer W n
    | none => 0
  | _ => 0

/-- The macro `luaL_optint(L, narg, d)`: `d` for none or nil, else `luaL_checkinteger`
cast to `int`. -/
def luaL_optint (W : World) (L : lua_State) (narg : Int) (d : Int) : Except Fault Int := do
  match ← value_at L narg with
  | none | some Value.nil => pure d
  | some v =>
    let n := lua_tointeger W v
    if n = 0 ∧ lua_isnumber W v = false then throw (Fault.raised LuaError.bad_argument)
    else pure (toInt32 n)

/-- The call `lua_tolstring` behind `luaL_checklstring`: a string is returned, a number
is first converted to a string in its stack slot, anything else is an argument error. -/
def luaL_checkstring (W : World) (L : lua_State) (narg : Int) :
    Except Fault (lua_State × String) :=
  match index2adr L narg with
  | none =>
    if 0 < narg then Except.error (Fault.raised LuaError.bad_argument)
    else Except.error (Fault.undefined Undefined.invalid_index)
  | some p =>
    match L.stack.get? p with
    | some (Value.string s) => Except.ok (L, s)
    | some (Value.number n) =>
      Except.ok ({ L with stack := L.stack.set p (Value.string (W.number2str n)) },
        W.number2str n)
    | _ => Except.error (Fault.raised LuaError.bad_argument)

/-- The macro `luaL_optstring(L, narg, NULL)`. -/
def luaL_optstring (W : World) (L : lua_State) (narg : Int) :
    Except Fault (lua_State × Option String) := do
  match ← value_at L narg with
  | none | some Value.nil => pure (L, none)
  | some _ =>
    let (L1, s) ← luaL_checkstring W L narg
    pure (L1, some s)

def luaL_checktype (L : lua_State) (narg : Int) (t : Int) : Except Fault Unit := do
  if (← lua_type L narg) = t then pure () else throw (Fault.raised LuaError.bad_argument)

/-- The call `luaL_ref(L, LUA_REGISTRYINDEX)` of `lauxlib.c`: pops the top value; nil
gets `LUA_REFNIL`; otherwise the head of the free list kept at `registry[0]` is reused
or a new key after the last one is taken. -/
def luaL_ref (W : World) (L : lua_State) : Except Fault (lua_State × Int) :=
  match L.stack.getLast? with
  | none => Except.error (Fault.undefined Undefined.invalid_index)
  | some Value.nil => Except.ok ({ L with stack := L.stack.dropLast }, LUA_REFNIL)
  | some v =>
    let t := L.l_G.registry
    let free := toInt32 (lua_tointeger W (rawget t (Value.number FREELIST_REF)))
    let ref : Int := if free ≠ 0 then free else (objlen t : Int) + 1
    let t1 := if free ≠ 0 then
        rawset t (Value.number FREELIST_REF) (rawget t (Value.number free)) else t
    Except.ok
      ({ stack := L.stack.dropLast,
         l_G := { L.l_G with registry := rawset t1 (Value.number ref) v } }, ref)

/-- The call `luaL_unref(L, LUA_REGISTRYINDEX, ref)` of `lauxlib.c`: for `ref >= 0`,
`registry[ref] = registry[0]` and then `registry[0] = ref`. -/
def luaL_unref (L : lua_State) (ref : Int) : lua_State :=
  if 0 ≤ ref then
    let t := L.l_G.registry
    let t1 := rawset t (Value.number ref) (rawget t (Value.number FREELIST_REF))
    { L with l_G := { L.l_G with
        registry := rawset t1 (Value.number FREELIST_REF) (Value.number ref) } }
  else L

/-- The call `lua_next(L, idx)`: pops a key and pushes the next pair of the table at
`idx` (result 1), or pushes nothing at the end of the table (result 0). -/
def lua_next (L : lua_State) (idx : Int) : Except Fault (lua_State × Int) :=
  match L.stack.getLast?, index2adr L idx >>= L.stack.get? with
  | some key, some (Value.table id) =>
    match L.l_G.tables.lookup id with
    | none => Except.error (Fault.undefined Undefined.bad_pointer)
    | some t =>
      match table_next t key with
      | none => Except.error (Fault.raised LuaError.invalid_key_to_next)
      | some none => Except.ok ({ L with stack := L.stack.dropLast }, 0)
      | some (some (k, v)) =>
        Except.ok ({ L with stack := L.stack.dropLast ++ [k, v] }, 1)
  | some _, some _ => Except.error (Fault.undefined Undefined.not_a_table)
  | _, _ => Except.error (Fault.undefined Undefined.invalid_index)

/-- The results of a call adjusted to `nresults` values. -/
def adjust_results (rs : List Value) (nresults : Nat) : List Value :=
  rs.take nresults ++ List.replicate (nresults - rs.length) Value.nil

/-- The unprotected call `lua_call(L, nargs, nresults)`: the function and its arguments
are popped, the adjusted results pushed; an error raised by the function, or the call
of a value that is no function, propagates. -/
def lua_call (W : World) (L : lua_State) (nargs nresults : Nat) : Except Fault lua_State :=
  if L.stack.length < nargs + 1 then Except.error (Fault.undefined Undefined.invalid_index)
  else
    let base := L.stack.take (L.stack.length - (nargs + 1))
    let args := L.stack.drop (L.stack.length - nargs)
    match L.stack.get? (L.stack.length - (nargs + 1)) with
    | some (Value.function f) =>
      match W.run f args L.l_G with
      | Except.ok (rs, G) => Except.ok { stack := base ++ adjust_results rs nresults, l_G := G }
      | Except.error e => Except.error (Fault.raised (LuaError.thrown e))
    | some _ => Except.error (Fault.raised LuaError.call_non_function)
    | none => Except.error (Fault.undefined Undefined.invalid_index)

/-- The call `lua_newuserdata`: a new userdata object is pushed. -/
def lua_newuserdata (L : lua_State) : lua_State × Nat :=
  ({ stack := L.stack ++ [Value.userdata L.l_G.next_id],
     l_G := { L.l_G with next_id := L.l_G.next_id + 1 } }, L.l_G.next_id)

/-! ## The binding: data -/

def WS_CONTEXT_META : String := "lws.con"
def WS_WEBSOCKET_META : String := "lws.ws"
def MAX_PROTOCOLS : Nat := 4
def MAX_EXTENSIONS : Nat := 4

/-- The C struct `lws_websocket` (its back pointer to the Lua state left out). -/
structure lws_websocket where
  wsi : Nat
  deriving DecidableEq, Repr

/-- The C struct `lws_link`: `userdata` points to the owning context (the identity of
its userdata block), `NULL` is `none`. -/
structure lws_link where
  userdata : Option Nat
  protocol_index : Int
  deriving DecidableEq, Repr

/-- The C struct `lws_context`, named apart from the function `lws_context` (the
extensions array, never written, and the back pointer to the Lua state left out). The
arrays have `MAX_PROTOCOLS` cells. -/
structure lws_context_t where
  protocol_function_refs : List Int
  context : Option Nat
  destroyed : Int
  protocol_count : Nat
  protocol_names : List String
  protocols : List libwebsocket_protocols
  links : List lws_link
  deriving DecidableEq, Repr

/-- The `void *dyn_user` of a callback: the pointer's value, and the `int` it addresses
when it points to per-session data (`none` when it is an integer in disguise or `NULL`). -/
structure dyn_user_t where
  addr : Nat
  cell : Option Int
  deriving DecidableEq, Repr

/-- The arguments the engine passes to the callback: `user` is the link of the
protocol, `in_` the bytes at the pointer `in` (`none` for `NULL`). -/
structure callback_args where
  wsi : Nat
  reason : libwebsocket_callback_reasons
  dyn_user : dyn_user_t
  in_ : Option String
  len : Nat
  user : lws_link
  deriving DecidableEq, Repr

/-- The stack and memory `lws_callback` has built when it reaches `lua_call`. -/
structure marshalled where
  L : lua_State
  argc : Nat
  dyn_user : dyn_user_t
  deriving DecidableEq, Repr

/-- What `lws_callback` leaves behind when it returns `res`. -/
structure callback_result where
  res : Int
  L : lua_State
  dyn_user : dyn_user_t
  deriving DecidableEq, Repr

/-- Read of an `int` array cell; outside the array the read is undefined. -/
def array_read (a : List Int) (i : Int) : Except Fault Int :=
  if 0 ≤ i then
    match a.get? i.toNat with
    | some x => Except.ok x
    | none => Except.error (Fault.undefined Undefined.out_of_bounds)
  else Except.error (Fault.undefined Undefined.out_of_bounds)

/-- The store `*(int *)dyn_user = v`. -/
def store_int (d : dyn_user_t) (v : Int) : Except Fault dyn_user_t :=
  match d.cell with
  | some _ => Except.ok { d with cell := some v }
  | none => Except.error (Fault.undefined Undefined.bad_pointer)

/-- The load `*(int *)dyn_user`. -/
def load_int (d : dyn_user_t) : Except Fault Int :=
  match d.cell with
  | some v => Except.ok v
  | none => Except.error (Fault.undefined Undefined.bad_pointer)

/-- The call `strcpy` into a row of `char[100]`: the bytes before the first NUL, which
must fit with their terminator. -/
def strcpy_name (s : String) : Except Fault String :=
  let c := String.mk (s.data.takeWhile (fun ch => ch ≠ Char.ofNat 0))
  if c.length < 100 then Except.ok c
  else Except.error (Fault.undefined Undefined.buffer_overflow)

/-! ## The binding: functions -/

/-- The function `lws_context_create`: a zeroed `struct lws_context` in a new userdata. -/
def lws_context_create (L : lua_State) : lua_State × Nat × lws_context_t :=
  let (L1, ud) := lua_newuserdata L
  (L1, ud,
    { protocol_function_refs := List.replicate MAX_PROTOCOLS 0,
      context := none,
      destroyed := 0,
      protocol_count := 0,
      protocol_names := List.replicate MAX_PROTOCOLS "",
      protocols := List.replicate MAX_PROTOCOLS
        { name := none, callback := false, per_session_data_size := 0, user := none },
      links := List.replicate MAX_PROTOCOLS { userdata := none, protocol_index := 0 } })

/-- The function `lws_websocket_create`: a `struct lws_websocket` for `wsi` in a new
userdata. -/
def lws_websocket_create (L : lua_State) (wsi : Nat) : lua_State × Nat × lws_websocket :=
  let (L1, ud) := lua_newuserdata L
  (L1, ud, { wsi := wsi })

/-- The body of `lws_callback` up to the call of the handler (lines 54 to 106): the
reference bookkeeping of the reason, then the handler, the handle, the reason code and
the payload pushed on the stack. -/
def lws_callback_marshal (W : World) (lws_user : lws_context_t) (a : callback_args)
    (L : lua_State) : Except Fault marshalled := do
  let (L, ws_ref, dyn_user) ←
    (if a.reason = libwebsocket_callback_reasons.LWS_CALLBACK_ESTABLISHED
        ∨ a.reason = libwebsocket_callback_reasons.LWS_CALLBACK_CLIENT_ESTABLISHED then do
      let L := luaL_getmetatable L WS_WEBSOCKET_META
      let L ← lua_setmetatable L (-2)
      let (L, ws_ref) ← luaL_ref W L
      let dyn_user ← store_int a.dyn_user ws_ref
      let L ← lua_remove L 1
      pure (L, ws_ref, dyn_user)
    else if a.reason = libwebsocket_callback_reasons.LWS_CALLBACK_CLOSED then do
      let r ← load_int a.dyn_user
      pure (luaL_unref L r, LUA_REFNIL, a.dyn_user)
    else pure (L, LUA_REFNIL, a.dyn_user) : Except Fault (lua_State × Int × dyn_user_t))
  let argc : Nat := 0
  let fref ← array_read lws_user.protocol_function_refs a.user.protocol_index
  let L := lua_rawgeti_registry L fref
  let L := lua_rawgeti_registry L ws_ref
  let argc := argc + 1
  let L := lua_pushnumber L (W.reason_code a.reason)
  let argc := argc + 1
  match a.reason with
  | libwebsocket_callback_reasons.LWS_CALLBACK_SET_MODE_POLL_FD
  | libwebsocket_callback_reasons.LWS_CALLBACK_CLEAR_MODE_POLL_FD =>
    let L := lua_pushnumber L (toInt32 dyn_user.addr)
    let argc := argc + 1
    let L := lua_pushnumber L (size_t_to_number a.len)
    let argc := argc + 1
    pure { L := L, argc := argc, dyn_user := dyn_user }
  | libwebsocket_callback_reasons.LWS_CALLBACK_ADD_POLL_FD
  | libwebsocket_callback_reasons.LWS_CALLBACK_DEL_POLL_FD =>
    let L := lua_pushnumber L (toInt32 dyn_user.addr)
    let argc := argc + 1
    pure { L := L, argc := argc, dyn_user := dyn_user }
  | libwebsocket_callback_reasons.LWS_CALLBACK_RECEIVE
  | libwebsocket_callback_reasons.LWS_CALLBACK_CLIENT_RECEIVE
  | libwebsocket_callback_reasons.LWS_CALLBACK_HTTP =>
    match a.in_ with
    | some buf =>
      if 0 < a.len then do
        let L ← lua_pushlstring L buf a.len
        let argc := argc + 1
        pure { L := L, argc := argc, dyn_user := dyn_user }
      else pure { L := L, argc := argc, dyn_user := dyn_user }
    | none => pure { L := L, argc := argc, dyn_user := dyn_user }
  | _ => pure { L := L, argc := argc, dyn_user := dyn_user }

/-- The function `lws_callback`: the marshalling above, the unprotected call of the
handler for one result, and the result read with `luaL_optint(L, -1, 1)`. -/
def lws_callback (W : World) (lws_user : lws_context_t) (a : callback_args)
    (L : lua_State) : Except Fault callback_result := do
  let m ← lws_callback_marshal W lws_user a L
  let L ← lua_call W m.L m.argc 1
  let res ← luaL_optint W L (-1) 1
  let L ← lua_pop L 1
  pure { res := res, L := L, dyn_user := m.dyn_user }

/-- The loop of `lws_context` over the protocols table (lines 143 to 157). The first
argument bounds the number of iterations; each iteration increments `protocol_count`,
so `MAX_PROTOCOLS + 1` is enough for the guard to end the loop. -/
def register_protocols (W : World) (ud : Nat) :
    Nat → lua_State → lws_context_t → Except Fault (lua_State × lws_context_t)
  | 0, _, _ => Except.error Fault.out_of_fuel
  | fuel + 1, L, user =>
    if user.protocol_count < MAX_PROTOCOLS then do
      let (L, more) ← lua_next L (-2)
      if more ≠ 0 then do
        let n := user.protocol_count
        let (L, key) ← luaL_checkstring W L (-2)
        let name ← strcpy_name key
        let L ← lua_pushvalue L (-1)
        let (L, ref) ← luaL_ref W L
        let L ← lua_remove L 1
        let L ← lua_pop L 1
        register_protocols W ud fuel L
          { user with
            protocol_names := user.protocol_names.set n name,
            protocols := user.protocols.set n
              { name := some n, callback := true, per_session_data_size := 4,
                user := some n },
            protocol_function_refs := user.protocol_function_refs.set n ref,
            protocol_count := n + 1,
            links := user.links.set n { userdata := some ud, protocol_index := n } }
      else pure (L, user)
    else pure (L, user)

/-- What `lws_context` returns to Lua (its one result) and leaves in memory. -/
structure context_result where
  result : Value
  L : lua_State
  ud : Nat
  user : lws_context_t
  deriving DecidableEq, Repr

/-- The function `lws_context`, called with its arguments on the stack of `L`. -/
def lws_context (W : World) (L : lua_State) : Except Fault context_result := do
  let (L, ud, user) := lws_context_create L
  let L := luaL_getmetatable L WS_CONTEXT_META
  let L ← lua_setmetatable L (-2)
  let (L, user, port, interf) ←
    (if (← lua_type L 1) = LUA_TTABLE then do
      let L ← lua_getfield L 1 "port"
      let port ← luaL_optint W L (-1) 0
      let L ← lua_pop L 1
      let L ← lua_getfield L 1 "interf"
      let (L, interf) ← luaL_optstring W L (-1)
      let L ← lua_pop L 1
      let L ← lua_getfield L 1 "protocols"
      luaL_checktype L 1 LUA_TTABLE
      let L ← lua_pushvalue L 1
      let (L, r) ← lua_setfenv L (-3)
      if r ≠ 1 then throw Fault.assert_failed
      let L := lua_pushnil L
      let (L, user) ← register_protocols W ud (MAX_PROTOCOLS + 1) L user
      let L ← lua_pop L 1
      pure (L, user, port, interf)
    else pure (L, user, 0, none) : Except Fault (lua_State × lws_context_t × Int × Option String))
  let user := { user with context := W.create_context port interf user.protocols }
  match L.stack.getLast? with
  | some v => pure { result := v, L := L, ud := ud, user := user }
  | none => throw (Fault.undefined Undefined.missing_result)

/-- The function `luaL_checkudata(L, 1, tname)`: argument 1 must be a userdata whose
metatable is `registry[tname]`. -/
def luaL_checkudata (L : lua_State) (tname : String) : Except Fault Nat :=
  match L.stack.head? with
  | some (Value.userdata ud) =>
    if rawget L.l_G.metatables (Value.userdata ud) ≠ Value.nil
        ∧ rawget L.l_G.metatables (Value.userdata ud) = rawget L.l_G.registry (Value.string tname)
    then Except.ok ud
    else Except.error (Fault.raised LuaError.bad_argument)
  | _ => Except.error (Fault.raised LuaError.bad_argument)

/-- The release loop of `lws_context_destroy` (lines 172 to 175) over the cells of
`protocol_function_refs` from the current index on: it stops at the first zero cell, and
a read after the last cell is outside the array. -/
def release_refs : List Int → lua_State → Except Fault lua_State
  | [], _ => Except.error (Fault.undefined Undefined.out_of_bounds)
  | r :: rs, L => if r ≠ 0 then release_refs rs (luaL_unref L r) else Except.ok L

/-- The process state `lws_context_destroy` works on: the Lua state with the context
userdata as argument 1, the `struct lws_context` in that userdata, and the native
contexts handed to `libwebsocket_context_destroy` so far. -/
structure destroy_state where
  L : lua_State
  user : lws_context_t
  torn_down : List Nat
  deriving DecidableEq, Repr

/-- The function `lws_context_destroy`. -/
def lws_context_destroy (s : destroy_state) : Except Fault destroy_state := do
  let _ ← luaL_checkudata s.L WS_CONTEXT_META
  if s.user.destroyed = 0 then
    let torn_down := match s.user.context with
      | some c => s.torn_down ++ [c]
      | none => s.torn_down
    let L ← release_refs s.user.protocol_function_refs s.L
    pure { L := L, user := { s.user with destroyed := 1 }, torn_down := torn_down }
  else pure s

/-! ## Definitions used to state the properties -/

/-- The payload arguments of an event, in the words of the specification: the payload
bytes for the data reasons when there are any, the descriptor for the poll reasons, with
the mask for a change of mode, nothing otherwise. -/
def payload_args (a : callback_args) : List Value :=
  match a.reason with
  | libwebsocket_callback_reasons.LWS_CALLBACK_RECEIVE
  | libwebsocket_callback_reasons.LWS_CALLBACK_CLIENT_RECEIVE
  | libwebsocket_callback_reasons.LWS_CALLBACK_HTTP =>
    match a.in_ with
    | some buf => if 0 < a.len then [Value.string (String.mk (buf.data.take a.len))] else []
    | none => []
  | libwebsocket_callback_reasons.LWS_CALLBACK_ADD_POLL_FD
  | libwebsocket_callback_reasons.LWS_CALLBACK_DEL_POLL_FD =>
    [Value.number (toInt32 a.dyn_user.addr)]
  | libwebsocket_callback_reasons.LWS_CALLBACK_SET_MODE_POLL_FD
  | libwebsocket_callback_reasons.LWS_CALLBACK_CLEAR_MODE_POLL_FD =>
    [Value.number (toInt32 a.dyn_user.addr), Value.number (size_t_to_number a.len)]
  | _ => []

/-- What `lws_callback` does with the outcome of the handler (lines 107 to 110), on the
stack `base` that lay under the handler and its arguments. -/
def after_call (W : World) (base : List Value) (d : dyn_user_t) :
    Except Value (List Value × global_State) → Except Fault callback_result
  | Except.ok (rs, G) => do
    let L1 : lua_State := { stack := base ++ adjust_results rs 1, l_G := G }
    let res ← luaL_optint W L1 (-1) 1
    let L2 ← lua_pop L1 1
    pure { res := res, L := L2, dyn_user := d }
  | Except.error e => Except.error (Fault.raised (LuaError.thrown e))

/-- The values of type `int` of C. -/
def is_int (v : Int) : Prop := -2147483648 ≤ v ∧ v < 2147483648

/-- The values of type `lua_Integer`, the 64-bit `ptrdiff_t`. -/
def is_lua_Integer (v : Int) : Prop := -9223372036854775808 ≤ v ∧ v < 9223372036854775808

/-- The object registered under a key of the registry, when there is one: a handle or a
handler. The links of the free list are numbers, and register nothing. -/
def registration (t : Table) (k : Value) : Option Value :=
  match rawget t k with
  | Value.table id => some (Value.table id)
  | Value.function id => some (Value.function id)
  | Value.userdata id => some (Value.userdata id)
  | _ => none

/-- Whether a value is a string. -/
def is_string : Value → Bool
  | Value.string _ => true
  | _ => false

/-- A world: reason codes, decimal coercions, a native engine that creates the context
1, and the Lua functions: 11 returns 0, 12 raises the error "boom", 13 returns
4294967296, and any other, 10 among them, returns nothing. -/
def demo_world : World where
  reason_code := fun r =>
    match r with
    | libwebsocket_callback_reasons.LWS_CALLBACK_ESTABLISHED => 0
    | libwebsocket_callback_reasons.LWS_CALLBACK_CLIENT_ESTABLISHED => 2
    | libwebsocket_callback_reasons.LWS_CALLBACK_CLOSED => 3
    | libwebsocket_callback_reasons.LWS_CALLBACK_RECEIVE => 4
    | libwebsocket_callback_reasons.LWS_CALLBACK_CLIENT_RECEIVE => 5
    | libwebsocket_callback_reasons.LWS_CALLBACK_HTTP => 9
    | libwebsocket_callback_reasons.LWS_CALLBACK_ADD_POLL_FD => 19
    | libwebsocket_callback_reasons.LWS_CALLBACK_DEL_POLL_FD => 20
    | libwebsocket_callback_reasons.LWS_CALLBACK_SET_MODE_POLL_FD => 21
    | libwebsocket_callback_reasons.LWS_CALLBACK_CLEAR_MODE_POLL_FD => 22
    | libwebsocket_callback_reasons.other c => c
  str2d := fun s => s.toInt?
  number2str := fun n => toString n
  integer_out_of_range := fun _ => -9223372036854775808
  run := fun f _ G =>
    match f with
    | 11 => Except.ok ([Value.number 0], G)
    | 12 => Except.error (Value.string "boom")
    | 13 => Except.ok ([Value.number 4294967296], G)
    | _ => Except.ok ([], G)
  create_context := fun _ _ _ => some 1

/-- The registry after `luaopen_websockets` with the handlers 10 to 13 under the
references 1 to 4 and the connection handle, userdata 9, under reference 5. -/
def demo_registry : Table :=
  [(Value.string "lws.con", Value.table 1), (Value.string "lws.ws", Value.table 2),
   (Value.number 1, Value.function 10), (Value.number 2, Value.function 11),
   (Value.number 3, Value.function 12), (Value.number 4, Value.function 13),
   (Value.number 5, Value.userdata 9)]

def demo_G : global_State :=
  { registry := demo_registry,
    tables := [(1, []), (2, [])],
    metatables := [(Value.userdata 8, Value.table 1), (Value.userdata 9, Value.table 2)],
    next_id := 20 }

/-- The frame in which the service loop runs: the context userdata is argument 1. -/
def demo_L : lua_State := { stack := [Value.userdata 8], l_G := demo_G }

/-- A context with `k` registered protocols, the handlers under the references 1 to `k`. -/
def demo_user (k : Nat) : lws_context_t :=
  { protocol_function_refs :=
      (List.range MAX_PROTOCOLS).map (fun i => if i < k then (i : Int) + 1 else 0),
    context := some 1,
    destroyed := 0,
    protocol_count := k,
    protocol_names :=
      (List.range MAX_PROTOCOLS).map (fun i => if i < k then String.mk [Char.ofNat (97 + i)] else ""),
    protocols := (List.range MAX_PROTOCOLS).map (fun i =>
      if i < k then
        { name := some i, callback := true, per_session_data_size := 4, user := some i }
      else { name := none, callback := false, per_session_data_size := 0, user := none }),
    links := (List.range MAX_PROTOCOLS).map (fun i =>
      if i < k then { userdata := some 8, protocol_index := (i : Int) }
      else { userdata := none, protocol_index := 0 }) }

/-- An event of protocol `p` on connection 7, whose per-session slot holds `slot`. -/
def demo_event (reason : libwebsocket_callback_reasons) (p : Int) (slot : Int)
    (payload : Option String) (len : Nat) : callback_args :=
  { wsi := 7, reason := reason, dyn_user := { addr := 4096, cell := some slot },
    in_ := payload, len := len, user := { userdata := some 8, protocol_index := p } }

/-- A poll event for the descriptor `fd`: the pointer is the descriptor itself. -/
def demo_poll_event (reason : libwebsocket_callback_reasons) (fd : Nat) (mask : Nat) :
    callback_args :=
  { wsi := 0, reason := reason, dyn_user := { addr := fd, cell := none },
    in_ := none, len := mask, user := { userdata := some 8, protocol_index := 0 } }

/-- The protocols table with the `k` names a, b, ... and the handlers 10, 11, ... -/
def demo_protocols (k : Nat) : Table :=
  (List.range k).map
    (fun i => (Value.string (String.mk [Char.ofNat (97 + i)]), Value.function (10 + i)))

/-- The global state at a call of `websockets.context`, after `luaopen_websockets`:
table 3 is the configuration, with port 0, and its field `protocols` is table 4, with
the contents `protocols`. -/
def demo_config_G (protocols : Table) : global_State :=
  { registry := [(Value.string "lws.con", Value.table 1), (Value.string "lws.ws", Value.table 2)],
    tables := [(1, []), (2, []),
      (3, [(Value.string "port", Value.number 0), (Value.string "protocols", Value.table 4)]),
      (4, protocols)],
    metatables := [],
    next_id := 5 }

/-- The state after the destruction of the context with one protocol: the reference 1
is released and heads the free list, the native context 1 is torn down. -/
def demo_destroyed : destroy_state :=
  { L := { stack := [Value.userdata 8],
           l_G := { demo_G with
             registry := rawset (rawset demo_registry (Value.number 1) Value.nil)
               (Value.number 0) (Value.number 1) } },
    user := { demo_user 1 with destroyed := 1 },
    torn_down := [1] }

/-- The service-loop frame after the handle under reference 5 has been released: the
reference 5 heads the free list of the registry. -/
def demo_released_L : lua_State :=
  { stack := [Value.userdata 8],
    l_G := { demo_G with
      registry := rawset (rawset demo_registry (Value.number 5) Value.nil)
        (Value.number 0) (Value.number 5) } }

/-- Equality of outcomes is decidable. -/
instance instDecidableEqOutcome {α : Type} [DecidableEq α] : DecidableEq (Except Fault α) :=
  fun a b =>
    match a, b with
    | Except.ok x, Except.ok y =>
      if h : x = y then isTrue (by rw [h])
      else isFalse (by intro h1; cases h1; exact h rfl)
    | Except.error x, Except.error y =>
      if h : x = y then isTrue (by rw [h])
      else isFalse (by intro h1; cases h1; exact h rfl)
    | Except.ok _, Except.error _ => isFalse (by intro h; cases h)
    | Except.error _, Except.ok _ => isFalse (by intro h; cases h)

/-! ## Lemmas on the model -/

theorem store_int_addr {d d1 : dyn_user_t} {v : Int} (h : store_int d v = Except.ok d1) :
    d1.addr = d.addr := by
  unfold store_int at h
  split at h
  · cases h; rfl
  · cases h

/-- The stack `lws_callback` has built when it calls the handler: under the arguments
lies the handler, and the arguments are a handle, the reason code and the payload. -/
theorem marshal_stack (W : World) (lws_user : lws_context_t) (a : callback_args)
    (L : lua_State) (m : marshalled) (h : lws_callback_marshal W lws_user a L = Except.ok m) :
    ∃ base f hd,
      m.L.stack = base ++ [f, hd, Value.number (W.reason_code a.reason)] ++ payload_args a
      ∧ m.argc = 2 + (payload_args a).length := by
  unfold lws_callback_marshal at h
  simp only [bind, Except.bind, pure, Except.pure] at h
  split at h
  · cases h
  · rename_i x p hp
    obtain ⟨L1, ws_ref, d1⟩ := p
    have hd : d1.addr = a.dyn_user.addr := by
      split at hp
      · split at hp
        · cases hp
        · split at hp
          · cases hp
          · split at hp
            · cases hp
            · rename_i d2 hs
              split at hp
              · cases hp
              · cases hp
                exact store_int_addr hs
      · split at hp
        · split at hp
          · cases hp
          · cases hp; rfl
        · cases hp; rfl
    simp only at h
    split at h
    · cases h
    · rename_i fref hf
      refine ⟨L1.stack, rawget L1.l_G.registry (Value.number fref),
        rawget L1.l_G.registry (Value.number ws_ref), ?_⟩
      obtain ⟨wsi, reason, dyn, inp, len, usr⟩ := a
      cases reason <;>
        simp only [payload_args, lua_pushnumber, lua_push, lua_rawgeti_registry] at h ⊢
      all_goals first
        | (cases h; simp [hd])
        | (cases inp with
           | none => simp only [] at h ⊢; cases h; simp
           | some buf =>
             simp only [] at h ⊢
             by_cases hl : 0 < len
             · simp only [hl, if_true, lua_pushlstring, lua_push] at h ⊢
               by_cases hb : len ≤ buf.length
               · simp only [hb, if_true] at h; cases h; simp
               · simp only [hb, if_false] at h; cases h
             · simp only [hl, if_false] at h ⊢; cases h; simp)

/-- The call of a function that lies under exactly `n` arguments runs it on them. -/
theorem lua_call_append (W : World) (base args : List Value) (f : Nat) (G : global_State)
    (n : Nat) (L : lua_State) (hs : L.stack = base ++ Value.function f :: args)
    (hn : n = args.length) (hG : L.l_G = G) :
    lua_call W L n 1 =
      match W.run f args G with
      | Except.ok (rs, G1) =>
        Except.ok { stack := base ++ adjust_results rs 1, l_G := G1 }
      | Except.error e => Except.error (Fault.raised (LuaError.thrown e)) := by
  subst hn hG
  unfold lua_call
  have h1 : ¬ (L.stack.length < args.length + 1) := by simp [hs]
  have h2 : L.stack.length - (args.length + 1) = base.length := by simp [hs]
  have h3 : L.stack.length - args.length = base.length + 1 := by simp [hs]; omega
  have h4 : L.stack.get? base.length = some (Value.function f) := by
    rw [hs, List.get?_eq_getElem?, List.getElem?_append_right (le_refl _)]
    simp
  have h5 : List.take base.length L.stack = base := by simp [hs]
  have h6 : List.drop (base.length + 1) L.stack = args := by
    rw [hs, List.drop_append_eq_append_drop]
    simp
  simp only [h1, if_false, h2, h3, h4, h5, h6]

/-- The function `lws_callback` is the marshalling, the run of the handler on the
marshalled arguments, and the reading of its outcome. -/
theorem lws_callback_eq (W : World) (lws_user : lws_context_t) (a : callback_args)
    (L : lua_State) (m : marshalled) (base args : List Value) (f : Nat)
    (hm : lws_callback_marshal W lws_user a L = Except.ok m)
    (hs : m.L.stack = base ++ Value.function f :: args) (hn : m.argc = args.length) :
    lws_callback W lws_user a L = after_call W base m.dyn_user (W.run f args m.L.l_G) := by
  unfold lws_callback
  simp only [bind, Except.bind, hm]
  rw [lua_call_append W base args f m.L.l_G m.argc m.L hs hn rfl]
  unfold after_call
  cases W.run f args m.L.l_G with
  | error e => rfl
  | ok p => obtain ⟨rs, G⟩ := p; rfl

theorem adjust_results_one (rs : List Value) :
    adjust_results rs 1 = [rs.head?.getD Value.nil] := by
  cases rs with
  | nil => rfl
  | cons x xs => simp [adjust_results]

theorem value_at_top (base : List Value) (v : Value) (G : global_State) :
    value_at { stack := base ++ [v], l_G := G } (-1) = Except.ok (some v) := by
  simp [value_at, index2adr, List.get?_eq_getElem?]

theorem lua_pop_top (base : List Value) (v : Value) (G : global_State) :
    lua_pop { stack := base ++ [v], l_G := G } 1 = Except.ok { stack := base, l_G := G } := by
  simp [lua_pop]

/-- A handler that returns nothing, or nil, is read as the decision 1. -/
theorem after_call_nil (W : World) (base : List Value) (d : dyn_user_t) (rs : List Value)
    (G : global_State) (h : rs.head? = none ∨ rs.head? = some Value.nil) :
    after_call W base d (Except.ok (rs, G)) =
      Except.ok { res := 1, L := { stack := base, l_G := G }, dyn_user := d } := by
  have h1 : rs.head?.getD Value.nil = Value.nil := by
    rcases h with h | h <;> simp [h]
  simp [after_call, adjust_results_one, h1, luaL_optint, value_at_top, lua_pop_top, bind,
    Except.bind, pure, Except.pure]

/-- A handler that returns the number `v` is read as `v` converted to `int`. -/
theorem after_call_number (W : World) (base : List Value) (d : dyn_user_t) (rs : List Value)
    (G : global_State) (v : Int) (h : rs.head? = some (Value.number v)) :
    after_call W base d (Except.ok (rs, G)) =
      Except.ok { res := toInt32 (lua_number2integer W v), L := { stack := base, l_G := G },
                  dyn_user := d } := by
  simp [after_call, adjust_results_one, h, luaL_optint, value_at_top, lua_pop_top, bind,
    Except.bind, pure, Except.pure, lua_tointeger, lua_isnumber]

theorem toInt32_of_is_int (v : Int) (h : is_int v) : toInt32 v = v := by
  unfold is_int at h
  unfold toInt32
  omega

theorem lua_number2integer_exact (W : World) (v : Int) (h : is_lua_Integer v) :
    lua_number2integer W v = v := by
  unfold is_lua_Integer at h
  unfold lua_number2integer
  rw [if_pos h]

theorem is_lua_Integer_of_is_int (v : Int) (h : is_int v) : is_lua_Integer v := by
  unfold is_int at h
  unfold is_lua_Integer
  omega

/-- Up to the call of the handler a Receive event changes neither the global state of
Lua, the registry included, nor the per-session slot. -/
theorem marshal_receive_frame (W : World) (lws_user : lws_context_t) (a : callback_args)
    (L : lua_State) (m : marshalled)
    (hr : a.reason = libwebsocket_callback_reasons.LWS_CALLBACK_RECEIVE)
    (h : lws_callback_marshal W lws_user a L = Except.ok m) :
    m.L.l_G = L.l_G ∧ m.dyn_user = a.dyn_user := by
  obtain ⟨wsi, reason, dyn, inp, len, usr⟩ := a
  simp only at hr
  subst hr
  unfold lws_callback_marshal at h
  simp only [bind, Except.bind, pure, Except.pure, reduceCtorEq, or_self, if_false] at h
  split at h
  · cases h
  · simp only [lua_pushnumber, lua_push, lua_rawgeti_registry] at h
    cases inp with
    | none => simp only [] at h; cases h; simp
    | some buf =>
      simp only [] at h
      by_cases hl : 0 < len
      · simp only [hl, if_true, lua_pushlstring, lua_push] at h
        by_cases hb : len ≤ buf.length
        · simp only [hb, if_true] at h; cases h; simp
        · simp only [hb, if_false] at h; cases h
      · simp only [hl, if_false] at h; cases h; simp

/-! ## The decision returned to the engine (C1) -/

/-- Claim C1, as stated, fails: the handler of protocol 3 returns the integer
4294967296, and `lws_callback` returns 0, the decision to continue, not the integer the
handler returned. -/
theorem lws_callback_decision_wraps :
    demo_world.run 13 [Value.nil, Value.number 4, Value.string "ping"] demo_G
        = Except.ok ([Value.number 4294967296], demo_G)
    ∧ lws_callback demo_world (demo_user 4)
        (demo_event libwebsocket_callback_reasons.LWS_CALLBACK_RECEIVE 3 5 (some "ping") 4) demo_L
        = Except.ok { res := 0, L := demo_L, dyn_user := { addr := 4096, cell := some 5 } } :=
  ⟨rfl, rfl⟩

/-- Claim C1, amended. Whatever the reason and the payload, once the handler has been
called and has returned the values `rs`, the decision follows from its first result
alone: no value or nil gives 1; an integer `v` of the range of `lua_Integer` gives `v`
converted to the C type `int`, which is `v` itself when `v` is an `int`; so among the
results nothing, nil and an `int`, the decision 0 comes only from the result 0. -/
theorem lws_callback_decision (W : World) (lws_user : lws_context_t) (a : callback_args)
    (L : lua_State) (m : marshalled) (base args : List Value) (f : Nat) (rs : List Value)
    (G : global_State)
    (hm : lws_callback_marshal W lws_user a L = Except.ok m)
    (hs : m.L.stack = base ++ Value.function f :: args) (hn : m.argc = args.length)
    (hr : W.run f args m.L.l_G = Except.ok (rs, G)) :
    ((rs.head? = none ∨ rs.head? = some Value.nil) →
      lws_callback W lws_user a L =
        Except.ok { res := 1, L := { stack := base, l_G := G }, dyn_user := m.dyn_user })
    ∧ (∀ v, rs.head? = some (Value.number v) → is_lua_Integer v →
      lws_callback W lws_user a L =
        Except.ok { res := toInt32 v, L := { stack := base, l_G := G }, dyn_user := m.dyn_user })
    ∧ (∀ v, rs.head? = some (Value.number v) → is_int v →
      lws_callback W lws_user a L =
        Except.ok { res := v, L := { stack := base, l_G := G }, dyn_user := m.dyn_user })
    ∧ (∀ r, lws_callback W lws_user a L = Except.ok r → r.res = 0 →
      (rs.head? = none ∨ rs.head? = some Value.nil
        ∨ ∃ v, rs.head? = some (Value.number v) ∧ is_int v) →
      rs.head? = some (Value.number 0)) := by
  have heq := lws_callback_eq W lws_user a L m base args f hm hs hn
  rw [hr] at heq
  refine ⟨?_, ?_, ?_, ?_⟩
  · intro h
    rw [heq, after_call_nil W base m.dyn_user rs G h]
  · intro v h hv
    rw [heq, after_call_number W base m.dyn_user rs G v h, lua_number2integer_exact W v hv]
  · intro v h hv
    rw [heq, after_call_number W base m.dyn_user rs G v h,
      lua_number2integer_exact W v (is_lua_Integer_of_is_int v hv), toInt32_of_is_int v hv]
  · intro r hres h0 hcase
    rcases hcase with h | h | ⟨v, h, hv⟩
    · rw [heq, after_call_nil W base m.dyn_user rs G (Or.inl h)] at hres
      cases hres
      simp at h0
    · rw [heq, after_call_nil W base m.dyn_user rs G (Or.inr h)] at hres
      cases hres
      simp at h0
    · rw [heq, after_call_number W base m.dyn_user rs G v h,
        lua_number2integer_exact W v (is_lua_Integer_of_is_int v hv),
        toInt32_of_is_int v hv] at hres
      cases hres
      simp only at h0
      rw [h, h0]

/-- The amended claim C1 at a Receive event whose handler returns 0. -/
theorem lws_callback_decision_witness :
    lws_callback demo_world (demo_user 4)
        (demo_event libwebsocket_callback_reasons.LWS_CALLBACK_RECEIVE 1 5 (some "ping") 4) demo_L
      = Except.ok { res := 0, L := demo_L, dyn_user := { addr := 4096, cell := some 5 } } :=
  (lws_callback_decision demo_world (demo_user 4)
    (demo_event libwebsocket_callback_reasons.LWS_CALLBACK_RECEIVE 1 5 (some "ping") 4) demo_L
    { L := { stack := [Value.userdata 8, Value.function 11, Value.nil, Value.number 4,
               Value.string "ping"], l_G := demo_G },
      argc := 3, dyn_user := { addr := 4096, cell := some 5 } }
    [Value.userdata 8] [Value.nil, Value.number 4, Value.string "ping"] 11
    [Value.number 0] demo_G rfl rfl rfl rfl).2.2.1 0 rfl (by unfold is_int; omega)

/-! ## The handle passed on a Receive event (C2) -/

/-- Claim C2 on the code: the slot of the connection holds the reference 5, under which
the registry keeps the handle, userdata 9; on a Receive event with the payload "ping"
the handler is called with nil, the reason and "ping": the slot is not read, and the
handle pushed is `registry[LUA_REFNIL]`. -/
theorem receive_passes_no_handle (W : World) :
    rawget demo_L.l_G.registry (Value.number 5) = Value.userdata 9
    ∧ lws_callback_marshal W (demo_user 1)
        (demo_event libwebsocket_callback_reasons.LWS_CALLBACK_RECEIVE 0 5 (some "ping") 4) demo_L
      = Except.ok
          { L := { stack := [Value.userdata 8, Value.function 10, Value.nil,
                     Value.number (W.reason_code libwebsocket_callback_reasons.LWS_CALLBACK_RECEIVE),
                     Value.string "ping"],
                   l_G := demo_G },
            argc := 3, dyn_user := { addr := 4096, cell := some 5 } } :=
  ⟨rfl, rfl⟩

/-! ## A handler that raises an error (C4) -/

/-- Claim C4, as stated, fails: the handler of protocol 2 raises the error "boom" on a
Receive event, and `lws_callback` does not return a decision: the error leaves it. -/
theorem lws_callback_error_propagates :
    demo_world.run 12 [Value.nil, Value.number 4, Value.string "ping"] demo_G
        = Except.error (Value.string "boom")
    ∧ lws_callback demo_world (demo_user 4)
        (demo_event libwebsocket_callback_reasons.LWS_CALLBACK_RECEIVE 2 5 (some "ping") 4) demo_L
        = Except.error (Fault.raised (LuaError.thrown (Value.string "boom"))) :=
  ⟨rfl, rfl⟩

/-- Claim C4, amended. For every event, if the handler raises the error `e`, then
`lws_callback` returns no decision: the error leaves it, as the call is unprotected.
When the event is a Receive, the global state of Lua, the registry included, and the
slot of the connection are, at the call of the handler, as they were before the event. -/
theorem lws_callback_handler_error (W : World) (lws_user : lws_context_t) (a : callback_args)
    (L : lua_State) (m : marshalled) (base args : List Value) (f : Nat) (e : Value)
    (hm : lws_callback_marshal W lws_user a L = Except.ok m)
    (hs : m.L.stack = base ++ Value.function f :: args) (hn : m.argc = args.length)
    (hr : W.run f args m.L.l_G = Except.error e) :
    lws_callback W lws_user a L = Except.error (Fault.raised (LuaError.thrown e))
    ∧ (a.reason = libwebsocket_callback_reasons.LWS_CALLBACK_RECEIVE →
        m.L.l_G = L.l_G ∧ m.dyn_user = a.dyn_user) := by
  refine ⟨?_, fun hrec => marshal_receive_frame W lws_user a L m hrec hm⟩
  rw [lws_callback_eq W lws_user a L m base args f hm hs hn, hr]
  rfl

/-- The amended claim C4 at a Receive event whose handler raises "boom". -/
theorem lws_callback_handler_error_witness :
    lws_callback demo_world (demo_user 4)
        (demo_event libwebsocket_callback_reasons.LWS_CALLBACK_RECEIVE 2 5 (some "ping") 4) demo_L
      = Except.error (Fault.raised (LuaError.thrown (Value.string "boom")))
    ∧ (libwebsocket_callback_reasons.LWS_CALLBACK_RECEIVE
          = libwebsocket_callback_reasons.LWS_CALLBACK_RECEIVE →
        demo_G = demo_L.l_G
        ∧ ({ addr := 4096, cell := some 5 } : dyn_user_t)
          = (demo_event libwebsocket_callback_reasons.LWS_CALLBACK_RECEIVE 2 5
              (some "ping") 4).dyn_user) :=
  lws_callback_handler_error demo_world (demo_user 4)
    (demo_event libwebsocket_callback_reasons.LWS_CALLBACK_RECEIVE 2 5 (some "ping") 4) demo_L
    { L := { stack := [Value.userdata 8, Value.function 12, Value.nil, Value.number 4,
               Value.string "ping"], l_G := demo_G },
      argc := 3, dyn_user := { addr := 4096, cell := some 5 } }
    [Value.userdata 8] [Value.nil, Value.number 4, Value.string "ping"] 12
    (Value.string "boom") rfl rfl rfl rfl

/-! ## The arguments of the handler -/

/-- For every event for which `lws_callback` reaches the call of the handler, the stack
holds the handler, then the handle or nil, the reason code and the payload arguments of
the reason, and nothing more; `argc` counts them; and the handler is run on exactly
these arguments. -/
theorem handler_arguments_of_marshal (W : World) (lws_user : lws_context_t)
    (a : callback_args) (L : lua_State) (m : marshalled)
    (hm : lws_callback_marshal W lws_user a L = Except.ok m) :
    ∃ base f handle,
      m.L.stack = base ++ [f, handle, Value.number (W.reason_code a.reason)] ++ payload_args a
      ∧ m.argc = 2 + (payload_args a).length
      ∧ ∀ id, f = Value.function id →
          lws_callback W lws_user a L =
            after_call W base m.dyn_user
              (W.run id (handle :: Value.number (W.reason_code a.reason) :: payload_args a)
                m.L.l_G) := by
  obtain ⟨base, f, hd, hstack, hargc⟩ := marshal_stack W lws_user a L m hm
  refine ⟨base, f, hd, hstack, hargc, ?_⟩
  intro id hf
  subst hf
  apply lws_callback_eq W lws_user a L m base _ id hm
  · rw [hstack]; simp
  · rw [hargc]; simp; omega

/-! ## Frame lemmas -/


theorem rawget_rawset_ne (t : Table) (k k1 v : Value) (h : k1 ≠ k) :
    rawget (rawset t k v) k1 = rawget t k1 := by
  induction t with
  | nil =>
    unfold rawset
    split
    · rfl
    · simp [rawget, Ne.symm h]
  | cons p t ih =>
    obtain ⟨k2, v2⟩ := p
    unfold rawset
    by_cases h2 : k2 = k
    · subst h2
      simp only [if_true]
      split
      · rw [ih]; simp [rawget, Ne.symm h]
      · simp [rawget, Ne.symm h]
    · simp only [h2, if_false]
      simp only [rawget]
      rw [ih]

theorem luaL_unref_stack (L : lua_State) (r : Int) : (luaL_unref L r).stack = L.stack := by
  unfold luaL_unref; split <;> rfl

theorem luaL_unref_metatables (L : lua_State) (r : Int) :
    (luaL_unref L r).l_G.metatables = L.l_G.metatables := by
  unfold luaL_unref; split <;> rfl

theorem luaL_unref_registry (L : lua_State) (r : Int) (k : Value)
    (h1 : k ≠ Value.number r) (h0 : k ≠ Value.number FREELIST_REF) :
    rawget (luaL_unref L r).l_G.registry k = rawget L.l_G.registry k := by
  unfold luaL_unref
  split
  · simp only
    rw [rawget_rawset_ne _ _ _ _ h0, rawget_rawset_ne _ _ _ _ h1]
  · rfl

theorem luaL_unref_negative (L : lua_State) (r : Int) (h : r < 0) : luaL_unref L r = L := by
  unfold luaL_unref
  simp [not_le.mpr h]

theorem release_refs_frame (rs : List Int) (L L1 : lua_State)
    (h : release_refs rs L = Except.ok L1) :
    L1.stack = L.stack ∧ L1.l_G.metatables = L.l_G.metatables
      ∧ ∀ s, rawget L1.l_G.registry (Value.string s) = rawget L.l_G.registry (Value.string s) := by
  induction rs generalizing L with
  | nil => cases h
  | cons r rs ih =>
    unfold release_refs at h
    split at h
    · obtain ⟨h1, h2, h3⟩ := ih _ h
      refine ⟨by rw [h1, luaL_unref_stack], by rw [h2, luaL_unref_metatables], ?_⟩
      intro s
      rw [h3, luaL_unref_registry] <;> simp
    · cases h
      exact ⟨rfl, rfl, fun _ => rfl⟩

theorem luaL_checkudata_congr (L L1 : lua_State) (tname : String)
    (h1 : L1.stack = L.stack) (h2 : L1.l_G.metatables = L.l_G.metatables)
    (h3 : ∀ s, rawget L1.l_G.registry (Value.string s) = rawget L.l_G.registry (Value.string s)) :
    luaL_checkudata L1 tname = luaL_checkudata L tname := by
  unfold luaL_checkudata
  rw [h1, h2, h3]



theorem lua_setmetatable_next_id {L L1 : lua_State} {i : Int}
    (h : lua_setmetatable L i = Except.ok L1) : L1.l_G.next_id = L.l_G.next_id := by
  unfold lua_setmetatable at h
  split at h
  · split at h
    · cases h; rfl
    · cases h; rfl
    · cases h
  · cases h

theorem luaL_ref_next_id {W : World} {L L1 : lua_State} {r : Int}
    (h : luaL_ref W L = Except.ok (L1, r)) : L1.l_G.next_id = L.l_G.next_id := by
  unfold luaL_ref at h
  split at h
  · cases h
  · cases h; rfl
  · cases h; rfl

theorem lua_remove_l_G {L L1 : lua_State} {i : Int}
    (h : lua_remove L i = Except.ok L1) : L1.l_G = L.l_G := by
  unfold lua_remove at h
  split at h
  · cases h; rfl
  · cases h

theorem luaL_unref_next_id (L : lua_State) (r : Int) :
    (luaL_unref L r).l_G.next_id = L.l_G.next_id := by
  unfold luaL_unref; split <;> rfl

theorem marshal_next_id (W : World) (lws_user : lws_context_t) (a : callback_args)
    (L : lua_State) (m : marshalled) (h : lws_callback_marshal W lws_user a L = Except.ok m) :
    m.L.l_G.next_id = L.l_G.next_id := by
  unfold lws_callback_marshal at h
  simp only [bind, Except.bind, pure, Except.pure] at h
  split at h
  · cases h
  · rename_i x p hp
    obtain ⟨L1, ws_ref, d1⟩ := p
    have hd : L1.l_G.next_id = L.l_G.next_id := by
      split at hp
      · split at hp
        · cases hp
        · rename_i L2 h2
          split at hp
          · cases hp
          · rename_i q h3
            obtain ⟨L3, r3⟩ := q
            split at hp
            · cases hp
            · split at hp
              · cases hp
              · rename_i L4 h4
                cases hp
                rw [lua_remove_l_G h4, luaL_ref_next_id h3, lua_setmetatable_next_id h2]
                rfl
      · split at hp
        · split at hp
          · cases hp
          · cases hp; exact luaL_unref_next_id _ _
        · cases hp; rfl
    simp only at h
    split at h
    · cases h
    · rename_i fref hf
      obtain ⟨wsi, reason, dyn, inp, len, usr⟩ := a
      cases reason <;>
        simp only [lua_pushnumber, lua_push, lua_rawgeti_registry] at h
      all_goals first
        | (cases h; exact hd)
        | (cases inp with
           | none => simp only [] at h; cases h; exact hd
           | some buf =>
             simp only [] at h
             by_cases hl : 0 < len
             · simp only [hl, if_true, lua_pushlstring, lua_push] at h
               by_cases hb : len ≤ buf.length
               · simp only [hb, if_true] at h; cases h; exact hd
               · simp only [hb, if_false] at h; cases h
             · simp only [hl, if_false] at h; cases h; exact hd)

/-- On a Closed event whose slot holds `r`, the marshalling does not fail: it releases
`r` with `luaL_unref`, leaves the slot as it is, and pushes the handler, the handle
`registry[LUA_REFNIL]` and the reason code. -/
theorem marshal_closed (W : World) (lws_user : lws_context_t) (a : callback_args)
    (L : lua_State) (r fref : Int)
    (hr : a.reason = libwebsocket_callback_reasons.LWS_CALLBACK_CLOSED)
    (hc : a.dyn_user.cell = some r)
    (hf : array_read lws_user.protocol_function_refs a.user.protocol_index = Except.ok fref) :
    ∃ m, lws_callback_marshal W lws_user a L = Except.ok m
      ∧ m.dyn_user = a.dyn_user
      ∧ m.argc = 2
      ∧ m.L.stack = L.stack ++ [rawget m.L.l_G.registry (Value.number fref),
          rawget m.L.l_G.registry (Value.number LUA_REFNIL),
          Value.number (W.reason_code a.reason)]
      ∧ m.L.l_G = (luaL_unref L r).l_G := by
  obtain ⟨wsi, reason, dyn, inp, len, usr⟩ := a
  simp only at hr hc hf
  subst hr
  unfold lws_callback_marshal
  simp only [bind, Except.bind, pure, Except.pure, reduceCtorEq, or_self, if_false, if_true,
    load_int, hc, hf, lua_pushnumber, lua_push, lua_rawgeti_registry]
  refine ⟨_, rfl, rfl, rfl, ?_, rfl⟩
  simp [luaL_unref_stack]


/-- An event that is neither an Established nor a Closed one is marshalled without a
fault when the protocol index is valid and, for the reasons that carry data, the payload
buffer holds at least `len` bytes: the global state is unchanged, and the handler, the
handle, the reason code and the payload arguments of the reason are pushed. -/
theorem marshal_event (W : World) (lws_user : lws_context_t) (a : callback_args)
    (L : lua_State) (fref : Int)
    (h1 : a.reason ≠ libwebsocket_callback_reasons.LWS_CALLBACK_ESTABLISHED)
    (h2 : a.reason ≠ libwebsocket_callback_reasons.LWS_CALLBACK_CLIENT_ESTABLISHED)
    (h3 : a.reason ≠ libwebsocket_callback_reasons.LWS_CALLBACK_CLOSED)
    (hf : array_read lws_user.protocol_function_refs a.user.protocol_index = Except.ok fref)
    (hb : (a.reason = libwebsocket_callback_reasons.LWS_CALLBACK_RECEIVE
        ∨ a.reason = libwebsocket_callback_reasons.LWS_CALLBACK_CLIENT_RECEIVE
        ∨ a.reason = libwebsocket_callback_reasons.LWS_CALLBACK_HTTP) →
      ∀ buf, a.in_ = some buf → a.len ≤ buf.length) :
    ∃ m, lws_callback_marshal W lws_user a L = Except.ok m
      ∧ m.dyn_user = a.dyn_user
      ∧ m.L.l_G = L.l_G
      ∧ m.L.stack = L.stack ++ [rawget L.l_G.registry (Value.number fref),
          rawget L.l_G.registry (Value.number LUA_REFNIL),
          Value.number (W.reason_code a.reason)] ++ payload_args a
      ∧ m.argc = 2 + (payload_args a).length := by
  obtain ⟨wsi, reason, dyn, inp, len, usr⟩ := a
  simp only at h1 h2 h3 hf hb
  unfold lws_callback_marshal
  cases reason <;>
    simp only [bind, Except.bind, pure, Except.pure, reduceCtorEq, or_self, if_false, if_true,
      hf, lua_pushnumber, lua_push, lua_rawgeti_registry, payload_args, ne_eq,
      not_true_eq_false] at h1 h2 h3 ⊢
  all_goals first
    | exact ⟨_, rfl, rfl, rfl, by simp, rfl⟩
    | (cases inp with
       | none => exact ⟨_, rfl, rfl, rfl, by simp, rfl⟩
       | some buf =>
         simp only []
         by_cases hl : 0 < len
         · simp only [hl, if_true, lua_pushlstring, lua_push, hb (by simp) buf rfl]
           exact ⟨_, rfl, rfl, rfl, by simp, rfl⟩
         · simp only [hl, if_false]
           exact ⟨_, rfl, rfl, rfl, by simp, rfl⟩)

theorem lua_setmetatable_short (L : lua_State) (n : String) (hs : L.stack.length ≤ 1) :
    (∃ u, lua_setmetatable (luaL_getmetatable L n) (-2) = Except.error (Fault.undefined u))
    ∨ ∃ L1, lua_setmetatable (luaL_getmetatable L n) (-2) = Except.ok L1
        ∧ L1.stack.length = 1 := by
  obtain ⟨stack, G⟩ := L
  cases stack with
  | nil =>
    left
    exact ⟨Undefined.invalid_index, by simp [lua_setmetatable, luaL_getmetatable, lua_push, index2adr]⟩
  | cons x xs =>
    cases xs with
    | cons y ys => simp at hs
    | nil =>
      cases hmt : rawget G.registry (Value.string n) <;>
        simp [lua_setmetatable, luaL_getmetatable, lua_push, index2adr, hmt]

theorem luaL_ref_short (W : World) (L : lua_State) (hs : L.stack.length = 1) :
    ∃ L1 r, luaL_ref W L = Except.ok (L1, r) ∧ L1.stack = [] := by
  obtain ⟨stack, G⟩ := L
  cases stack with
  | nil => simp at hs
  | cons x xs =>
    cases xs with
    | cons y ys => simp at hs
    | nil =>
      cases x <;> simp [luaL_ref]

theorem lua_remove_empty (L : lua_State) (hs : L.stack = []) :
    lua_remove L 1 = Except.error (Fault.undefined Undefined.invalid_index) := by
  simp [lua_remove, index2adr, hs]

/-- On a frame of at most one value the Established branch never reaches the handler: it
ends in an undefined operation, at the latest in `lua_remove(L, 1)` on the stack it has
emptied. -/
theorem marshal_established_short (W : World) (lws_user : lws_context_t) (a : callback_args)
    (L : lua_State)
    (hr : a.reason = libwebsocket_callback_reasons.LWS_CALLBACK_ESTABLISHED
      ∨ a.reason = libwebsocket_callback_reasons.LWS_CALLBACK_CLIENT_ESTABLISHED)
    (hs : L.stack.length ≤ 1) :
    ∃ u, lws_callback_marshal W lws_user a L = Except.error (Fault.undefined u) := by
  unfold lws_callback_marshal
  simp only [hr, if_true, bind, Except.bind]
  rcases lua_setmetatable_short L WS_WEBSOCKET_META hs with ⟨u, h⟩ | ⟨L1, h, hl⟩
  · rw [h]; exact ⟨u, rfl⟩
  · rw [h]
    obtain ⟨L2, r, h2, hl2⟩ := luaL_ref_short W L1 hl
    simp only [h2]
    cases hc : a.dyn_user.cell with
    | none => simp only [store_int, hc]; exact ⟨_, rfl⟩
    | some c =>
      simp only [store_int, hc, lua_remove_empty L2 hl2]
      exact ⟨_, rfl⟩

theorem lws_callback_established_short (W : World) (lws_user : lws_context_t)
    (a : callback_args) (L : lua_State)
    (hr : a.reason = libwebsocket_callback_reasons.LWS_CALLBACK_ESTABLISHED
      ∨ a.reason = libwebsocket_callback_reasons.LWS_CALLBACK_CLIENT_ESTABLISHED)
    (hs : L.stack.length ≤ 1) :
    ∃ u, lws_callback W lws_user a L = Except.error (Fault.undefined u) := by
  obtain ⟨u, h⟩ := marshal_established_short W lws_user a L hr hs
  exact ⟨u, by unfold lws_callback; simp only [bind, Except.bind, h]⟩

theorem rawget_rawset_eq (t : Table) (k v : Value) : rawget (rawset t k v) k = v := by
  induction t with
  | nil =>
    unfold rawset
    split
    · rename_i h; simp [rawget, h]
    · simp [rawget]
  | cons p t ih =>
    obtain ⟨k2, v2⟩ := p
    unfold rawset
    by_cases h2 : k2 = k
    · subst h2
      simp only [if_true]
      split
      · exact ih
      · simp [rawget]
    · simp only [h2, if_false]
      simp only [rawget, h2, if_false]
      exact ih

theorem luaL_unref_registration (L : lua_State) (r : Int)
    (hr : registration L.l_G.registry (Value.number r) = none)
    (h0 : registration L.l_G.registry (Value.number FREELIST_REF) = none) (k : Value) :
    registration (luaL_unref L r).l_G.registry k = registration L.l_G.registry k := by
  by_cases hneg : r < 0
  · rw [luaL_unref_negative L r hneg]
  · have hge : 0 ≤ r := not_lt.mp hneg
    by_cases hk0 : k = Value.number FREELIST_REF
    · subst hk0
      rw [h0]
      unfold luaL_unref
      simp only [hge, if_true]
      unfold registration
      rw [rawget_rawset_eq]
    · by_cases hkr : k = Value.number r
      · subst hkr
        rw [hr]
        unfold luaL_unref
        simp only [hge, if_true]
        unfold registration at h0 ⊢
        rw [rawget_rawset_ne _ _ _ _ hk0, rawget_rawset_eq]
        exact h0
      · unfold registration
        rw [luaL_unref_registry L r k hkr hk0]

theorem release_refs_all_nonzero (refs : List Int) (L : lua_State) (h : ∀ r ∈ refs, r ≠ 0) :
    release_refs refs L = Except.error (Fault.undefined Undefined.out_of_bounds) := by
  induction refs generalizing L with
  | nil => rfl
  | cons r rs ih =>
    unfold release_refs
    have hr : r ≠ 0 := h r (List.mem_cons_self _ _)
    simp only [ne_eq, hr, not_false_eq_true, if_true]
    exact ih _ (fun x hx => h x (List.mem_cons_of_mem _ hx))

/-! ## The registration loop and the construction, step by step -/


theorem strcpy_name_error (s : String) (e : Fault) (h : strcpy_name s = Except.error e) :
    e = Fault.undefined Undefined.buffer_overflow := by
  simp only [strcpy_name] at h
  split at h
  · cases h
  · cases h; rfl

theorem lua_pop_error (L : lua_State) (n : Nat) (e : Fault) (h : lua_pop L n = Except.error e) :
    e = Fault.undefined Undefined.invalid_index := by
  unfold lua_pop at h
  split at h
  · cases h
  · cases h; rfl

theorem lua_next_fuel (L : lua_State) (i : Int) :
    lua_next L i ≠ Except.error Fault.out_of_fuel := by
  unfold lua_next
  intro h
  repeat' split at h
  all_goals cases h

theorem luaL_checkstring_fuel (W : World) (L : lua_State) (i : Int) :
    luaL_checkstring W L i ≠ Except.error Fault.out_of_fuel := by
  unfold luaL_checkstring
  intro h
  repeat' split at h
  all_goals cases h

theorem value_at_fuel (L : lua_State) (i : Int) :
    value_at L i ≠ Except.error Fault.out_of_fuel := by
  unfold value_at
  intro h
  repeat' split at h
  all_goals cases h

theorem lua_pushvalue_fuel (L : lua_State) (i : Int) :
    lua_pushvalue L i ≠ Except.error Fault.out_of_fuel := by
  unfold lua_pushvalue
  intro h
  simp only [bind, Except.bind, pure, Except.pure] at h
  cases hv : value_at L i with
  | error e =>
    rw [hv] at h
    cases h
    exact value_at_fuel L i hv
  | ok v =>
    rw [hv] at h
    cases v <;> cases h

theorem luaL_ref_fuel (W : World) (L : lua_State) :
    luaL_ref W L ≠ Except.error Fault.out_of_fuel := by
  unfold luaL_ref
  intro h
  repeat' split at h
  all_goals cases h

theorem lua_remove_fuel (L : lua_State) (i : Int) :
    lua_remove L i ≠ Except.error Fault.out_of_fuel := by
  unfold lua_remove
  intro h
  repeat' split at h
  all_goals cases h

/-- The bound of `MAX_PROTOCOLS + 1` iterations is never what ends the loop. -/
theorem register_protocols_fuel (W : World) (ud : Nat) :
    ∀ (fuel : Nat) (L : lua_State) (user : lws_context_t),
      user.protocol_count ≤ MAX_PROTOCOLS → MAX_PROTOCOLS < user.protocol_count + fuel →
      register_protocols W ud fuel L user ≠ Except.error Fault.out_of_fuel := by
  intro fuel
  induction fuel with
  | zero => intro L user h1 h2; omega
  | succ fuel ih =>
    intro L user h1 h2
    unfold register_protocols
    by_cases hc : user.protocol_count < MAX_PROTOCOLS
    · simp only [hc, if_true, bind, Except.bind, pure, Except.pure]
      cases hn : lua_next L (-2) with
      | error e => intro h; cases h; exact lua_next_fuel L (-2) hn
      | ok q =>
        obtain ⟨L1, more⟩ := q
        by_cases hm : more = 0
        · simp only [ne_eq, hm, not_true_eq_false, if_false]
          intro h; cases h
        · simp only [ne_eq, hm, not_false_eq_true, if_true]
          cases hcs : luaL_checkstring W L1 (-2) with
          | error e => intro h; cases h; exact luaL_checkstring_fuel W L1 (-2) hcs
          | ok q2 =>
            obtain ⟨L2, key⟩ := q2
            simp only
            cases hname : strcpy_name key with
            | error e =>
              intro h; cases h
              have := strcpy_name_error key _ hname
              cases this
            | ok name =>
              simp only
              cases hpv : lua_pushvalue L2 (-1) with
              | error e => intro h; cases h; exact lua_pushvalue_fuel L2 (-1) hpv
              | ok L3 =>
                simp only
                cases href : luaL_ref W L3 with
                | error e => intro h; cases h; exact luaL_ref_fuel W L3 href
                | ok q4 =>
                  obtain ⟨L4, ref⟩ := q4
                  simp only
                  cases hrm : lua_remove L4 1 with
                  | error e => intro h; cases h; exact lua_remove_fuel L4 1 hrm
                  | ok L5 =>
                    simp only
                    cases hpop : lua_pop L5 1 with
                    | error e =>
                      intro h; cases h
                      have := lua_pop_error L5 1 _ hpop
                      cases this
                    | ok L6 =>
                      simp only
                      apply ih
                      · simp only; omega
                      · simp only; omega
    · simp only [hc, if_false, pure, Except.pure]
      intro h; cases h

/-! ## The handle of an Established event (C3) -/

/-- Claim C3 on the code. In the frame of the service loop, where the stack holds the
context userdata alone, the Established branch gives the context the websocket
metatable, references it and then removes index 1 of a stack that is empty: the event
is undefined. On a stack of two values it references the value on top, here the string
"x", stores that reference, 6, in the slot and passes that value as the handle: no
userdata is created (`next_id` stays 20), and `lws_websocket_create` is never called.
For every event the marshalling creates no object. -/
theorem established_creates_no_handle :
    lws_callback_marshal demo_world (demo_user 1)
        (demo_event libwebsocket_callback_reasons.LWS_CALLBACK_ESTABLISHED 0 0 none 0) demo_L
      = Except.error (Fault.undefined Undefined.invalid_index)
    ∧ (lws_callback_marshal demo_world (demo_user 1)
        (demo_event libwebsocket_callback_reasons.LWS_CALLBACK_ESTABLISHED 0 0 none 0)
        { stack := [Value.userdata 8, Value.string "x"], l_G := demo_G }).toOption.map
          (fun m => (m.L.stack, m.dyn_user.cell,
            rawget m.L.l_G.registry (Value.number 6), m.L.l_G.next_id))
      = some ([Value.function 10, Value.string "x", Value.number 0], some 6,
          Value.string "x", 20)
    ∧ (lws_websocket_create demo_L 7).1.l_G.next_id = 21
    ∧ ∀ (W : World) (lws_user : lws_context_t) (a : callback_args) (L : lua_State)
        (m : marshalled), lws_callback_marshal W lws_user a L = Except.ok m →
        m.L.l_G.next_id = L.l_G.next_id :=
  ⟨by decide, by decide, by decide, marshal_next_id⟩

/-! ## Construction (C5, C6) -/

/-- Claim C5 on the code. Called with the configuration alone, `lws_context` returns the
context for the one protocol "echo", with slot 0 and the handler under reference 1; but
each iteration removes index 1 of the stack, so with two protocols the stack is empty
when the function returns its one result, and with three or four the traversal reads an
invalid index. -/
theorem lws_context_two_protocols :
    ((lws_context demo_world
        { stack := [Value.table 3],
          l_G := demo_config_G [(Value.string "echo", Value.function 10)] }).toOption.map
      (fun r => (r.result, r.user.protocol_count, r.user.protocol_names,
        r.user.protocol_function_refs))
      = some (Value.userdata 5, 1, ["echo", "", "", ""], [1, 0, 0, 0])
    ∧ (lws_context demo_world
        { stack := [Value.table 3],
          l_G := demo_config_G [(Value.string "echo", Value.function 10)] }).toOption.map
      (fun r => (r.user.links.get? 0, rawget r.L.l_G.registry (Value.number 1)))
      = some (some { userdata := some 5, protocol_index := 0 }, Value.function 10))
    ∧ lws_context demo_world
        { stack := [Value.table 3], l_G := demo_config_G (demo_protocols 2) }
      = Except.error (Fault.undefined Undefined.missing_result)
    ∧ lws_context demo_world
        { stack := [Value.table 3], l_G := demo_config_G (demo_protocols 3) }
      = Except.error (Fault.undefined Undefined.invalid_index)
    ∧ lws_context demo_world
        { stack := [Value.table 3], l_G := demo_config_G (demo_protocols 4) }
      = Except.error (Fault.undefined Undefined.invalid_index) :=
  ⟨by decide, by decide, by decide, by decide⟩

/-- Claim C8. For every context, two calls of `lws_context_destroy` in a row have the
outcome of one; and the second call changes nothing: the state after it, the registry
and the list of native contexts torn down included, is the state after the first. -/
theorem lws_context_destroy_idempotent (s : destroy_state) :
    (lws_context_destroy s >>= lws_context_destroy) = lws_context_destroy s
    ∧ ∀ s1, lws_context_destroy s = Except.ok s1 → lws_context_destroy s1 = Except.ok s1 := by
  have key : ∀ s1, lws_context_destroy s = Except.ok s1 →
      lws_context_destroy s1 = Except.ok s1 := by
    intro s1 h
    unfold lws_context_destroy at h
    simp only [bind, Except.bind, pure, Except.pure] at h
    split at h
    · cases h
    · rename_i ud hud
      split at h
      · split at h
        · cases h
        · rename_i L1 hrel
          cases h
          obtain ⟨h1, h2, h3⟩ := release_refs_frame _ _ _ hrel
          unfold lws_context_destroy
          simp only [bind, Except.bind, pure, Except.pure]
          rw [luaL_checkudata_congr s.L L1 WS_CONTEXT_META h1 h2 h3, hud]
          simp
      · rename_i hne
        cases h
        unfold lws_context_destroy
        simp only [bind, Except.bind, pure, Except.pure, hud, hne, if_false]
  refine ⟨?_, key⟩
  cases h : lws_context_destroy s with
  | error e => rfl
  | ok s1 => exact key s1 h

/-- Claim C8 at a context with one protocol. -/
theorem lws_context_destroy_idempotent_witness :
    lws_context_destroy { L := demo_L, user := demo_user 1, torn_down := [] }
      = Except.ok demo_destroyed
    ∧ lws_context_destroy demo_destroyed = Except.ok demo_destroyed :=
  ⟨by decide,
    (lws_context_destroy_idempotent { L := demo_L, user := demo_user 1, torn_down := [] }).2
      demo_destroyed (by decide)⟩

/-- Claim C9 on the code. With `MAX_PROTOCOLS` protocols no cell of
`protocol_function_refs` is zero, and the release loop, which stops at a zero cell only,
reads `protocol_function_refs[MAX_PROTOCOLS]`, after the last cell of the array. With
three protocols the first destroy tears the native context down, releases the
references 1, 2 and 3, which become the free list, and stops at the zero cell 3. -/
theorem lws_context_destroy_reads_past_the_array :
    lws_context_destroy { L := demo_L, user := demo_user 4, torn_down := [] }
      = Except.error (Fault.undefined Undefined.out_of_bounds)
    ∧ (lws_context_destroy { L := demo_L, user := demo_user 3, torn_down := [] }).toOption.map
        (fun s => (s.user.destroyed, s.torn_down,
          (List.range 6).map (fun i => rawget s.L.l_G.registry (Value.number i))))
      = some (1, [1], [Value.number 3, Value.nil, Value.number 1, Value.number 2,
          Value.function 13, Value.userdata 9]) :=
  ⟨by decide, by decide⟩

/-! ## The call of the handler (C7) -/

/-- Claim C7 on the code. For an Established or Client-Established event that arrives on
a frame of at most one value, as the frame of the service loop is, `lws_callback` does
not reach the call of the handler: the marshalling ends in an undefined operation. For
every other event with a valid protocol index, a readable slot when the reason is
Closed, and, when the reason carries data, a payload buffer of at least `len` bytes, the
marshalling succeeds: the stack then holds, above what it held, the handler,
`registry[LUA_REFNIL]` as the handle, the reason code and the payload arguments of the
reason, `argc` counts them, and the handler is run on exactly these arguments. And
whenever the marshalling succeeds, the handler is run on the handle, the reason code and
the payload arguments. -/
theorem lws_callback_handler_call (W : World) (lws_user : lws_context_t)
    (a : callback_args) (L : lua_State) :
    ((a.reason = libwebsocket_callback_reasons.LWS_CALLBACK_ESTABLISHED
        ∨ a.reason = libwebsocket_callback_reasons.LWS_CALLBACK_CLIENT_ESTABLISHED) →
      L.stack.length ≤ 1 →
      ∃ u, lws_callback_marshal W lws_user a L = Except.error (Fault.undefined u)
        ∧ lws_callback W lws_user a L = Except.error (Fault.undefined u))
    ∧ (a.reason ≠ libwebsocket_callback_reasons.LWS_CALLBACK_ESTABLISHED →
      a.reason ≠ libwebsocket_callback_reasons.LWS_CALLBACK_CLIENT_ESTABLISHED →
      (a.reason = libwebsocket_callback_reasons.LWS_CALLBACK_CLOSED →
        ∃ r, a.dyn_user.cell = some r) →
      ((a.reason = libwebsocket_callback_reasons.LWS_CALLBACK_RECEIVE
          ∨ a.reason = libwebsocket_callback_reasons.LWS_CALLBACK_CLIENT_RECEIVE
          ∨ a.reason = libwebsocket_callback_reasons.LWS_CALLBACK_HTTP) →
        ∀ buf, a.in_ = some buf → a.len ≤ buf.length) →
      ∀ fref, array_read lws_user.protocol_function_refs a.user.protocol_index
          = Except.ok fref →
      ∃ m, lws_callback_marshal W lws_user a L = Except.ok m
        ∧ m.L.stack = L.stack ++ [rawget m.L.l_G.registry (Value.number fref),
            rawget m.L.l_G.registry (Value.number LUA_REFNIL),
            Value.number (W.reason_code a.reason)] ++ payload_args a
        ∧ m.argc = 2 + (payload_args a).length
        ∧ ∀ id, rawget m.L.l_G.registry (Value.number fref) = Value.function id →
            lws_callback W lws_user a L =
              after_call W L.stack m.dyn_user
                (W.run id (rawget m.L.l_G.registry (Value.number LUA_REFNIL)
                  :: Value.number (W.reason_code a.reason) :: payload_args a) m.L.l_G))
    ∧ (∀ m, lws_callback_marshal W lws_user a L = Except.ok m →
      ∃ base f handle,
        m.L.stack = base ++ [f, handle, Value.number (W.reason_code a.reason)]
          ++ payload_args a
        ∧ m.argc = 2 + (payload_args a).length
        ∧ ∀ id, f = Value.function id →
            lws_callback W lws_user a L =
              after_call W base m.dyn_user
                (W.run id (handle :: Value.number (W.reason_code a.reason) :: payload_args a)
                  m.L.l_G)) := by
  refine ⟨?_, ?_, ?_⟩
  · intro hr hs
    obtain ⟨u, h⟩ := marshal_established_short W lws_user a L hr hs
    exact ⟨u, h, by unfold lws_callback; simp only [bind, Except.bind, h]⟩
  · intro h1 h2 hc hb fref hf
    have key : ∃ m, lws_callback_marshal W lws_user a L = Except.ok m
        ∧ m.L.stack = L.stack ++ [rawget m.L.l_G.registry (Value.number fref),
            rawget m.L.l_G.registry (Value.number LUA_REFNIL),
            Value.number (W.reason_code a.reason)] ++ payload_args a
        ∧ m.argc = 2 + (payload_args a).length := by
      by_cases h3 : a.reason = libwebsocket_callback_reasons.LWS_CALLBACK_CLOSED
      · obtain ⟨r, hr⟩ := hc h3
        obtain ⟨m, hm, _, hargc, hstack, _⟩ := marshal_closed W lws_user a L r fref h3 hr hf
        have hp : payload_args a = [] := by simp [payload_args, h3]
        exact ⟨m, hm, by rw [hstack, hp]; simp, by rw [hargc, hp]; rfl⟩
      · obtain ⟨m, hm, _, hG, hstack, hargc⟩ :=
          marshal_event W lws_user a L fref h1 h2 h3 hf hb
        exact ⟨m, hm, by rw [hstack, hG], hargc⟩
    obtain ⟨m, hm, hstack, hargc⟩ := key
    refine ⟨m, hm, hstack, hargc, ?_⟩
    intro id hid
    apply lws_callback_eq W lws_user a L m L.stack _ id hm
    · rw [hstack, hid]; simp
    · rw [hargc]; simp; omega
  · intro m hm
    exact handler_arguments_of_marshal W lws_user a L m hm

/-- Claim C7 at an Established event in the frame of the service loop, where the handler
is not called, and at a change of poll mode, where the handler is called with the
descriptor 6 and the mask 4 as its payload arguments. -/
theorem lws_callback_handler_call_witness :
    lws_callback demo_world (demo_user 1)
        (demo_event libwebsocket_callback_reasons.LWS_CALLBACK_ESTABLISHED 0 0 none 0) demo_L
      = Except.error (Fault.undefined Undefined.invalid_index)
    ∧ (∃ u, lws_callback_marshal demo_world (demo_user 1)
          (demo_event libwebsocket_callback_reasons.LWS_CALLBACK_ESTABLISHED 0 0 none 0) demo_L
        = Except.error (Fault.undefined u)
      ∧ lws_callback demo_world (demo_user 1)
          (demo_event libwebsocket_callback_reasons.LWS_CALLBACK_ESTABLISHED 0 0 none 0) demo_L
        = Except.error (Fault.undefined u))
    ∧ ∃ m, lws_callback_marshal demo_world (demo_user 1)
          (demo_poll_event libwebsocket_callback_reasons.LWS_CALLBACK_SET_MODE_POLL_FD 6 4)
          demo_L = Except.ok m
        ∧ m.L.stack = [Value.userdata 8] ++ [rawget m.L.l_G.registry (Value.number 1),
            rawget m.L.l_G.registry (Value.number LUA_REFNIL), Value.number 21]
            ++ [Value.number 6, Value.number 4]
        ∧ m.argc = 2 + 2
        ∧ ∀ id, rawget m.L.l_G.registry (Value.number 1) = Value.function id →
            lws_callback demo_world (demo_user 1)
              (demo_poll_event libwebsocket_callback_reasons.LWS_CALLBACK_SET_MODE_POLL_FD 6 4)
              demo_L =
              after_call demo_world [Value.userdata 8] m.dyn_user
                (demo_world.run id [rawget m.L.l_G.registry (Value.number LUA_REFNIL),
                  Value.number 21, Value.number 6, Value.number 4] m.L.l_G) :=
  ⟨by decide,
   (lws_callback_handler_call demo_world (demo_user 1)
      (demo_event libwebsocket_callback_reasons.LWS_CALLBACK_ESTABLISHED 0 0 none 0) demo_L).1
      (Or.inl rfl) (by decide),
   (lws_callback_handler_call demo_world (demo_user 1)
      (demo_poll_event libwebsocket_callback_reasons.LWS_CALLBACK_SET_MODE_POLL_FD 6 4)
      demo_L).2.1 (by decide) (by decide) (by intro h; cases h) (by intro _ buf h; cases h)
      1 (by decide)⟩

/-! ## A Closed event on a slot without a handle (C10) -/

/-- Claim C10, as stated, fails. The reference 5 has been released and heads the free
list, `registry[0]` is 5; a Closed event arrives for a connection whose slot is in its
initial state, zero, so that it holds no registered handle. The event does not fail,
but it does not leave the registry unchanged: `luaL_unref(L, LUA_REGISTRYINDEX, 0)`
writes 0 into `registry[0]`, and the free list is lost. The registered handlers are
kept. -/
theorem closed_rewrites_the_free_list :
    rawget demo_released_L.l_G.registry (Value.number FREELIST_REF) = Value.number 5
    ∧ registration demo_released_L.l_G.registry (Value.number 0) = none
    ∧ (lws_callback_marshal demo_world (demo_user 4)
        (demo_event libwebsocket_callback_reasons.LWS_CALLBACK_CLOSED 0 0 none 0)
        demo_released_L).toOption.map
          (fun m => (rawget m.L.l_G.registry (Value.number FREELIST_REF),
            rawget m.L.l_G.registry (Value.number 1), m.dyn_user.cell,
            decide (m.L.l_G.registry = demo_released_L.l_G.registry)))
      = some (Value.number 0, Value.function 10, some 0, false)
    ∧ (lws_callback demo_world (demo_user 4)
        (demo_event libwebsocket_callback_reasons.LWS_CALLBACK_CLOSED 0 0 none 0)
        demo_released_L).toOption.map (fun r => r.res) = some 1 :=
  ⟨by decide, by decide, by decide, by decide⟩

/-- Claim C10, amended. A Closed event on a slot that holds the integer `r` does not
fail in the bridge: the handler is reached with two arguments, and the slot is left as
it is. The release touches the registry at the key `r` and at the head of the free list
only:
every other entry, so every other registration, is unchanged; when `r` is negative, as
`LUA_REFNIL` and `LUA_NOREF` are, the whole global state is unchanged; and when the slot
holds no registered handle, that is when no object is registered under `r`, the
registrations after the event are those before it: none is released, none is changed. -/
theorem closed_without_handle (W : World) (lws_user : lws_context_t) (a : callback_args)
    (L : lua_State) (r fref : Int)
    (hr : a.reason = libwebsocket_callback_reasons.LWS_CALLBACK_CLOSED)
    (hc : a.dyn_user.cell = some r)
    (hf : array_read lws_user.protocol_function_refs a.user.protocol_index = Except.ok fref) :
    ∃ m, lws_callback_marshal W lws_user a L = Except.ok m
      ∧ m.dyn_user = a.dyn_user
      ∧ m.argc = 2
      ∧ m.L.stack = L.stack ++ [rawget m.L.l_G.registry (Value.number fref),
          rawget m.L.l_G.registry (Value.number LUA_REFNIL),
          Value.number (W.reason_code a.reason)]
      ∧ (∀ k, k ≠ Value.number r → k ≠ Value.number FREELIST_REF →
          rawget m.L.l_G.registry k = rawget L.l_G.registry k)
      ∧ m.L.l_G.tables = L.l_G.tables
      ∧ m.L.l_G.metatables = L.l_G.metatables
      ∧ (r < 0 → m.L.l_G = L.l_G)
      ∧ (registration L.l_G.registry (Value.number r) = none →
          registration L.l_G.registry (Value.number FREELIST_REF) = none →
          ∀ k, registration m.L.l_G.registry k = registration L.l_G.registry k)
      ∧ ∀ id, rawget m.L.l_G.registry (Value.number fref) = Value.function id →
          lws_callback W lws_user a L =
            after_call W L.stack a.dyn_user
              (W.run id [rawget m.L.l_G.registry (Value.number LUA_REFNIL),
                Value.number (W.reason_code a.reason)] m.L.l_G) := by
  obtain ⟨m, hm, hd, hargc, hstack, hG⟩ := marshal_closed W lws_user a L r fref hr hc hf
  refine ⟨m, hm, hd, hargc, hstack, ?_, ?_, ?_, ?_, ?_, ?_⟩
  · intro k h1 h0
    rw [hG]
    exact luaL_unref_registry L r k h1 h0
  · rw [hG]; unfold luaL_unref; split <;> rfl
  · rw [hG]; exact luaL_unref_metatables L r
  · intro hneg
    rw [hG, luaL_unref_negative L r hneg]
  · intro hr0 h0 k
    rw [hG]
    exact luaL_unref_registration L r hr0 h0 k
  · intro id hid
    rw [← hd]
    apply lws_callback_eq W lws_user a L m L.stack _ id hm
    · rw [hstack, hid]
    · rw [hargc]; rfl

/-- Claim C10 at a slot in its initial state, zero: the registrations under the
references 1 and 5 are kept, and the handler, which returns nothing, is called with nil
and the reason. -/
theorem closed_without_handle_witness :
    ∃ m, lws_callback_marshal demo_world (demo_user 1)
        (demo_event libwebsocket_callback_reasons.LWS_CALLBACK_CLOSED 0 0 none 0) demo_L
        = Except.ok m
      ∧ rawget m.L.l_G.registry (Value.number 1) = Value.function 10
      ∧ rawget m.L.l_G.registry (Value.number 5) = Value.userdata 9
      ∧ lws_callback demo_world (demo_user 1)
          (demo_event libwebsocket_callback_reasons.LWS_CALLBACK_CLOSED 0 0 none 0) demo_L
        = Except.ok
            { res := 1,
              L := { stack := [Value.userdata 8], l_G := m.L.l_G },
              dyn_user := { addr := 4096, cell := some 0 } } := by
  obtain ⟨m, hm, _, _, _, hreg, _, _, _, _, hcall⟩ :=
    closed_without_handle demo_world (demo_user 1)
      (demo_event libwebsocket_callback_reasons.LWS_CALLBACK_CLOSED 0 0 none 0) demo_L 0 1
      rfl rfl (by decide)
  have h1 : rawget m.L.l_G.registry (Value.number 1) = Value.function 10 := by
    rw [hreg _ (by decide) (by decide)]; decide
  have h5 : rawget m.L.l_G.registry (Value.number 5) = Value.userdata 9 := by
    rw [hreg _ (by decide) (by decide)]; decide
  refine ⟨m, hm, h1, h5, ?_⟩
  rw [hcall 10 h1]
  rfl

end LuaWebsockets
